import Mathlib

/-!
Shallow embedding of `src/main.py` of the obsidian-mcp-server repository.

The Python module defines six MCP tool adapters over two local HTTP services
(the Obsidian REST note-API and the Omni Search service):
`get_status`, `omni_search`, `get_active_note`, `get_file`, `update_file`,
and the composite workflow `search_and_find_matching_file`
(plus the disabled `search` helper, whose request shape the workflow inlines).

Modelling choices:
  * Each HTTP interaction is mediated by an explicit `Request` value and an
    environment `Env` mapping requests to outcomes.  An outcome (`Py`) is
    either a raised Python exception (transport error, timeout, JSON decode
    error, attribute error) carrying its message, or a response.
  * A response (`HttpResp`) carries the status code, the `.text` rendering of
    its body, and the outcome of calling `.json()` on it (which may raise).
  * Parsed JSON values are the inductive `JValue`.  Python truthiness, the
    `dict.get` method (raising `AttributeError` on non-dicts), `str()` and
    `repr()` on parsed values are embedded below.  String `repr` is modelled
    without escape handling of quote characters inside the string, and
    `json.dumps(..., indent=2)` is modelled without the indentation
    whitespace; no claim observes the exact text of either rendering.
  * Every adapter returns, next to its result, the list of requests it handed
    to the environment, in order; this trace embeds the observable I/O.
  * Python exception propagation inside the workflow's `try` block is the
    `Except String` monad; the top-level `except Exception` handler is the
    final `match` in each adapter.
-/

namespace Obsidian

/-- Outcome of an effectful Python step: a normal value or a raised exception
carrying its rendered message `str(e)`. -/
inductive Py (α : Type) where
  | exn : String → Py α
  | ok : α → Py α
deriving Repr, DecidableEq

/-- Parsed JSON values, as returned by `response.json()`.
Numbers are modelled as integers; no claim involves fractional numbers. -/
inductive JValue where
  | jnull : JValue
  | jbool : Bool → JValue
  | jnum : Int → JValue
  | jstr : String → JValue
  | jarr : List JValue → JValue
  | jobj : List (String × JValue) → JValue
deriving Repr

/-- An HTTP request as built by the adapters: method, full URL, query
parameters, headers, and optional raw body. -/
structure Request where
  method : String
  url : String
  params : List (String × String)
  headers : List (String × String)
  reqBody : Option String
deriving Repr, DecidableEq

/-- An HTTP response: status code, the `.text` rendering of the body, and the
outcome of `.json()` (which raises on a malformed body). -/
structure HttpResp where
  status : Nat
  text : String
  jsonVal : Py JValue

/-- The environment-sourced configuration: `OBSIDIAN_API_KEY`,
`OBSIDIAN_BASE_URL`, `OBSIDIAN_OMNI_SEARCH_BASE_URL`. -/
structure Config where
  apiKey : String
  baseUrlRest : String
  baseUrlOmni : String

/-- The remote world: every request the program issues is answered by
`respond`, either with a response or with a raised transport exception. -/
structure Env where
  respond : Request → Py HttpResp

/-- The single-quote character, used by Python f-strings in the source. -/
def sq : String := String.singleton (Char.ofNat 39)

/-- `needle.isPrefixOf` tested at every suffix of `hay`: the Python substring
test `needle in hay` on the underlying character lists. -/
def hasSubList (needle : List Char) : List Char → Bool
  | [] => needle.isEmpty
  | c :: rest => needle.isPrefixOf (c :: rest) || hasSubList needle rest

/-- Python `needle in hay` for strings: literal substring containment. -/
def strContains (hay needle : String) : Bool :=
  hasSubList needle.data hay.data

/-- Python truthiness of a parsed JSON value (`if not x`). -/
def pyTruthy : JValue → Bool
  | .jnull => false
  | .jbool b => b
  | .jnum n => n != 0
  | .jstr s => !(s == "")
  | .jarr xs => !xs.isEmpty
  | .jobj fs => !fs.isEmpty

/-- Python `x.get(key, dflt)`: on a dict, the value under `key` or `dflt`;
on any other value, an `AttributeError` is raised. -/
def pyGet (v : JValue) (key : String) (dflt : JValue) : Py JValue :=
  match v with
  | .jobj fields => .ok ((List.lookup key fields).getD dflt)
  | _ => .exn "AttributeError: object has no attribute get"

mutual

/-- Python `repr` of a parsed JSON value (the rendering used for elements
inside containers); string escape sequences are not modelled. -/
def pyRepr : JValue → String
  | .jnull => "None"
  | .jbool true => "True"
  | .jbool false => "False"
  | .jnum n => toString n
  | .jstr s => sq ++ s ++ sq
  | .jarr xs => "[" ++ pyReprList xs ++ "]"
  | .jobj fs => "\x7b" ++ pyReprFields fs ++ "\x7d"

def pyReprList : List JValue → String
  | [] => ""
  | [x] => pyRepr x
  | x :: rest => pyRepr x ++ ", " ++ pyReprList rest

def pyReprFields : List (String × JValue) → String
  | [] => ""
  | [(k, v)] => pyRepr (.jstr k) ++ ": " ++ pyRepr v
  | (k, v) :: rest => pyRepr (.jstr k) ++ ": " ++ pyRepr v ++ ", " ++ pyReprFields rest

end

/-- Python `str` of a parsed JSON value, as used by f-string interpolation
and by `str(content)` in the workflow: the string itself for strings, `repr`
for every other value. -/
def pyToStr : JValue → String
  | .jstr s => s
  | v => pyRepr v

mutual

/-- `json.dumps(v, ensure_ascii=False, indent=2)`; the indentation whitespace
is not modelled (no claim observes the rendered text). -/
def jsonDumps : JValue → String
  | .jnull => "null"
  | .jbool true => "true"
  | .jbool false => "false"
  | .jnum n => toString n
  | .jstr s => "\"" ++ s ++ "\""
  | .jarr xs => "[" ++ jsonDumpsList xs ++ "]"
  | .jobj fs => "\x7b" ++ jsonDumpsFields fs ++ "\x7d"

def jsonDumpsList : List JValue → String
  | [] => ""
  | [x] => jsonDumps x
  | x :: rest => jsonDumps x ++ ", " ++ jsonDumpsList rest

def jsonDumpsFields : List (String × JValue) → String
  | [] => ""
  | [(k, v)] => "\"" ++ k ++ "\": " ++ jsonDumps v
  | (k, v) :: rest => "\"" ++ k ++ "\": " ++ jsonDumps v ++ ", " ++ jsonDumpsFields rest

end

/-! ## Requests built by the adapters (`src/main.py`) -/

/-- `get_status`: `GET {BASE_URL_REST_LOCAL}` with the bearer header. -/
def statusRequest (cfg : Config) : Request :=
  { method := "GET", url := cfg.baseUrlRest, params := [],
    headers := [("Authorization", "Bearer " ++ cfg.apiKey)], reqBody := none }

/-- `omni_search`: `GET {BASE_URL_OMNI_SEARCH}/search` with `params={"q": q}`
and no headers (in particular, no auth header). -/
def omniRequest (cfg : Config) (q : String) : Request :=
  { method := "GET", url := cfg.baseUrlOmni ++ "/search", params := [("q", q)],
    headers := [], reqBody := none }

/-- `get_active_note`: `GET {BASE_URL_REST_LOCAL}/active`; the `Accept` header
is added only when `as_json` is true. -/
def activeRequest (cfg : Config) (as_json : Bool) : Request :=
  { method := "GET", url := cfg.baseUrlRest ++ "/active", params := [],
    headers :=
      if as_json then
        [("Authorization", "Bearer " ++ cfg.apiKey),
         ("Accept", "application/vnd.olrapi.note+json")]
      else [("Authorization", "Bearer " ++ cfg.apiKey)],
    reqBody := none }

/-- `get_file`: `GET {BASE_URL_REST_LOCAL}/vault/{filename}` with the bearer
header and an `Accept` header selected by `as_json`. -/
def getFileRequest (cfg : Config) (filename : String) (as_json : Bool) : Request :=
  { method := "GET", url := cfg.baseUrlRest ++ "/vault/" ++ filename, params := [],
    headers := [("Authorization", "Bearer " ++ cfg.apiKey),
      ("Accept", if as_json then "application/vnd.olrapi.note+json" else "text/markdown")],
    reqBody := none }

/-- `update_file`: `PUT {BASE_URL_REST_LOCAL}/vault/{filename}` with the
bearer header, a markdown content type, and `content` as the raw body. -/
def updateRequest (cfg : Config) (filename content : String) : Request :=
  { method := "PUT", url := cfg.baseUrlRest ++ "/vault/" ++ filename, params := [],
    headers := [("Authorization", "Bearer " ++ cfg.apiKey),
      ("Content-Type", "text/markdown")],
    reqBody := some content }

/-- The search `POST` issued by `search_and_find_matching_file` (and by the
disabled `search` helper): `POST {BASE_URL_REST_LOCAL}/search` with the bearer
header, the caller-chosen content type, and the query as the raw body. -/
def searchRequest (cfg : Config) (query content_type : String) : Request :=
  { method := "POST", url := cfg.baseUrlRest ++ "/search", params := [],
    headers := [("Authorization", "Bearer " ++ cfg.apiKey),
      ("Content-Type", content_type)],
    reqBody := some query }

/-- The per-candidate file fetch issued inside the workflow loop:
`GET {BASE_URL_REST_LOCAL}/vault/{filename}` with the bearer header and an
`Accept` header selected by `as_json`. -/
def fileRequest (cfg : Config) (filename : String) (as_json : Bool) : Request :=
  { method := "GET", url := cfg.baseUrlRest ++ "/vault/" ++ filename, params := [],
    headers := [("Authorization", "Bearer " ++ cfg.apiKey),
      ("Accept", if as_json then "application/vnd.olrapi.note+json" else "text/markdown")],
    reqBody := none }

/-! ## Single-call adapters -/

/-- Return shape of the single-call adapters: a plain-string payload
(`json.dumps`, `response.text`, or `update_file`'s confirmation / error
strings), a structured payload (`response.json()` passed through), a
`{"error": msg}` dict, or omni_search's `[{"error": msg}]` list. -/
inductive AdapterOut where
  | textOut : String → AdapterOut
  | jsonOut : JValue → AdapterOut
  | errDict : String → AdapterOut
  | errList : String → AdapterOut
deriving Repr

/-- `get_status` (`src/main.py` lines 44-66): GET the note-API root; on a
non-200 status return the error dict naming the code; on success return
`json.dumps(response.json(), ...)`; any raised exception is caught and
returned as the error dict. -/
def get_status (cfg : Config) (env : Env) : AdapterOut × List Request :=
  match env.respond (statusRequest cfg) with
  | .exn e => (.errDict ("Failed to get status: " ++ e), [statusRequest cfg])
  | .ok resp =>
    if resp.status != 200 then
      (.errDict ("Error: Received status code " ++ toString resp.status ++ " from Obsidian API."),
       [statusRequest cfg])
    else
      match resp.jsonVal with
      | .exn e => (.errDict ("Failed to get status: " ++ e), [statusRequest cfg])
      | .ok v => (.textOut (jsonDumps v), [statusRequest cfg])

/-- `omni_search` (`src/main.py` lines 68-97): GET `/search?q=` on the search
service with no auth header; failures use the `[{"error": msg}]` list shape. -/
def omni_search (cfg : Config) (env : Env) (q : String) : AdapterOut × List Request :=
  match env.respond (omniRequest cfg q) with
  | .exn e => (.errList ("Failed to perform Omni Search: " ++ e), [omniRequest cfg q])
  | .ok resp =>
    if resp.status != 200 then
      (.errList ("Error: Received status code " ++ toString resp.status ++ " from Omni Search."),
       [omniRequest cfg q])
    else
      match resp.jsonVal with
      | .exn e => (.errList ("Failed to perform Omni Search: " ++ e), [omniRequest cfg q])
      | .ok v => (.textOut (jsonDumps v), [omniRequest cfg q])

/-- `get_active_note` (`src/main.py` lines 217-250): GET `/active`; with
`as_json` the parsed structured note is returned, else `response.text`. -/
def get_active_note (cfg : Config) (env : Env) (as_json : Bool) : AdapterOut × List Request :=
  match env.respond (activeRequest cfg as_json) with
  | .exn e => (.errDict ("Failed to retrieve active note: " ++ e), [activeRequest cfg as_json])
  | .ok resp =>
    if resp.status != 200 then
      (.errDict ("Error: Received status code " ++ toString resp.status
          ++ " when retrieving active note."),
       [activeRequest cfg as_json])
    else
      if as_json then
        match resp.jsonVal with
        | .exn e => (.errDict ("Failed to retrieve active note: " ++ e), [activeRequest cfg as_json])
        | .ok v => (.jsonOut v, [activeRequest cfg as_json])
      else (.textOut resp.text, [activeRequest cfg as_json])

/-- `get_file` (`src/main.py` lines 253-289): GET `/vault/{filename}` with
content negotiation by `as_json`; with `as_json` the parsed structured note is
returned, else `response.text`. -/
def get_file (cfg : Config) (env : Env) (filename : String) (as_json : Bool) :
    AdapterOut × List Request :=
  match env.respond (getFileRequest cfg filename as_json) with
  | .exn e =>
    (.errDict ("Failed to retrieve file " ++ sq ++ filename ++ sq ++ ": " ++ e),
     [getFileRequest cfg filename as_json])
  | .ok resp =>
    if resp.status != 200 then
      (.errDict ("Error: Received status code " ++ toString resp.status
          ++ " when retrieving file.\n url: " ++ cfg.baseUrlRest ++ "/vault/" ++ filename),
       [getFileRequest cfg filename as_json])
    else
      if as_json then
        match resp.jsonVal with
        | .exn e =>
          (.errDict ("Failed to retrieve file " ++ sq ++ filename ++ sq ++ ": " ++ e),
           [getFileRequest cfg filename as_json])
        | .ok v => (.jsonOut v, [getFileRequest cfg filename as_json])
      else (.textOut resp.text, [getFileRequest cfg filename as_json])

/-- `update_file`'s success confirmation `f"File '{filename}' updated successfully."`. -/
def updateConfirm (filename : String) : String :=
  "File " ++ sq ++ filename ++ sq ++ " updated successfully."

/-- `update_file`'s non-success-status message
`f"Error: Received status code {code} when updating file."`. -/
def updateStatusErr (status : Nat) : String :=
  "Error: Received status code " ++ toString status ++ " when updating file."

/-- `update_file` (`src/main.py` lines 292-321): PUT `/vault/{filename}`;
statuses 200 and 204 are success; both outcomes are plain strings. -/
def update_file (cfg : Config) (env : Env) (filename content : String) :
    String × List Request :=
  match env.respond (updateRequest cfg filename content) with
  | .exn e =>
    ("Failed to update file " ++ sq ++ filename ++ sq ++ ": " ++ e,
     [updateRequest cfg filename content])
  | .ok resp =>
    if !(resp.status == 200 || resp.status == 204) then
      (updateStatusErr resp.status, [updateRequest cfg filename content])
    else (updateConfirm filename, [updateRequest cfg filename content])

/-! ## The composite workflow `search_and_find_matching_file`
(`src/main.py` lines 140-215) -/

/-- A fetched file body: `file_response.json()` when `as_json`, else
`file_response.text`. -/
inductive FileContent where
  | jsonContent : JValue → FileContent
  | textContent : String → FileContent
deriving Repr

/-- `str(content) if as_json else content`: the string the keyword is tested
against. -/
def contentStr : FileContent → String
  | .jsonContent v => pyToStr v
  | .textContent s => s

/-- The workflow's return value, a dict of one of three shapes:
`{"filename": ..., "content": ...}`, `{"message": ...}`, or
`{"error": ...}`.  The `filename` field holds the raw value extracted from
the search item (a parsed JSON value, not forced to a string). -/
inductive ToolResult where
  | found : JValue → FileContent → ToolResult
  | message : String → ToolResult
  | errorResult : String → ToolResult
deriving Repr

/-- The fixed "no results" message `"検索結果がありませんでした。"`
returned when the search result set is empty. -/
def noResultsMessage : String := "検索結果がありませんでした。"

/-- The "no match" message
`f"指定されたキーワード '{match_keyword}' を含むファイルは見つかりませんでした。"`
returned when the scan exhausts all candidates. -/
def noMatchMessage (match_keyword : String) : String :=
  "指定されたキーワード " ++ sq ++ match_keyword ++ sq
    ++ " を含むファイルは見つかりませんでした。"

/-- Prefix of the message produced by the workflow's outermost exception
handler: `f"search_and_find_matching_file エラー: {e}"`. -/
def wfErrPre : String := "search_and_find_matching_file エラー: "

/-- What one iteration of the workflow's `for item in results` loop does with
its candidate: continue to the next candidate, raise an exception, or return
the matched file. -/
inductive StepOutcome where
  | skip : StepOutcome
  | raised : String → StepOutcome
  | matched : JValue → FileContent → StepOutcome
deriving Repr

/-- `content = file_response.json() if as_json else file_response.text`:
the body read of a fetched file; with `as_json`, a malformed body raises. -/
def readBody (as_json : Bool) (resp : HttpResp) : Py FileContent :=
  if as_json then
    match resp.jsonVal with
    | .exn e => .exn e
    | .ok v => .ok (.jsonContent v)
  else .ok (.textContent resp.text)

/-- One iteration of the candidate loop (`src/main.py` lines 186-207), with
the list of fetch requests it issued:
`filename = item.get("file", {}).get("path")` (raising on non-dicts);
`if not filename: continue`; fetch `/vault/{filename}` (the URL interpolation
stringifies the value); a non-200 fetch logs a warning and continues; the body
is read (`.json()` may raise) and tested for the keyword. -/
def stepItem (cfg : Config) (env : Env) (match_keyword : String) (as_json : Bool)
    (item : JValue) : StepOutcome × List Request :=
  match pyGet item "file" (.jobj []) with
  | .exn e => (.raised e, [])
  | .ok fileVal =>
    match pyGet fileVal "path" .jnull with
    | .exn e => (.raised e, [])
    | .ok pathVal =>
      if !pyTruthy pathVal then (.skip, [])
      else
        match env.respond (fileRequest cfg (pyToStr pathVal) as_json) with
        | .exn e => (.raised e, [fileRequest cfg (pyToStr pathVal) as_json])
        | .ok resp =>
          if resp.status != 200 then (.skip, [fileRequest cfg (pyToStr pathVal) as_json])
          else
            match readBody as_json resp with
            | .exn e => (.raised e, [fileRequest cfg (pyToStr pathVal) as_json])
            | .ok content =>
              if strContains (contentStr content) match_keyword then
                (.matched pathVal content, [fileRequest cfg (pyToStr pathVal) as_json])
              else (.skip, [fileRequest cfg (pyToStr pathVal) as_json])

/-- The candidate loop: iterate the search results in order; after the last
candidate the "no match" message is returned.  A raised exception aborts the
loop (it is caught by the workflow's top-level handler).  The second component
collects the fetch requests issued, in order. -/
def scanCandidates (cfg : Config) (env : Env) (match_keyword : String) (as_json : Bool) :
    List JValue → Except String ToolResult × List Request
  | [] => (.ok (.message (noMatchMessage match_keyword)), [])
  | item :: rest =>
    match (stepItem cfg env match_keyword as_json item).1 with
    | .raised e => (.error e, (stepItem cfg env match_keyword as_json item).2)
    | .matched fn c => (.ok (.found fn c), (stepItem cfg env match_keyword as_json item).2)
    | .skip =>
      ((scanCandidates cfg env match_keyword as_json rest).1,
       (stepItem cfg env match_keyword as_json item).2
         ++ (scanCandidates cfg env match_keyword as_json rest).2)

/-- `search_and_find_matching_file` (`src/main.py` lines 140-215): POST the
search; a non-200 search status returns the error dict naming the code; an
empty (falsy) result set returns the "no results" message; otherwise the
candidates are scanned in order.  Any exception raised inside the `try` block
(transport failure of the search or of a fetch, a malformed JSON body, an
`AttributeError` from a non-dict item, iterating a truthy non-list body —
the last is modelled directly as the raised exception) is caught by the
top-level handler and returned as the error dict.  The second component is
the list of HTTP requests issued, in order. -/
def search_and_find_matching_file (cfg : Config) (env : Env)
    (query match_keyword content_type : String) (as_json : Bool) :
    ToolResult × List Request :=
  match env.respond (searchRequest cfg query content_type) with
  | .exn e => (.errorResult (wfErrPre ++ e), [searchRequest cfg query content_type])
  | .ok sresp =>
    if sresp.status != 200 then
      (.errorResult ("Search error: status code " ++ toString sresp.status),
       [searchRequest cfg query content_type])
    else
      match sresp.jsonVal with
      | .exn e => (.errorResult (wfErrPre ++ e), [searchRequest cfg query content_type])
      | .ok results =>
        if !pyTruthy results then
          (.message noResultsMessage, [searchRequest cfg query content_type])
        else
          match results with
          | .jarr items =>
            (match scanCandidates cfg env match_keyword as_json items with
             | (.ok r, t) => (r, searchRequest cfg query content_type :: t)
             | (.error e, t) =>
               (.errorResult (wfErrPre ++ e), searchRequest cfg query content_type :: t))
          | _ =>
            (.errorResult (wfErrPre ++ "TypeError: search results are not a list"),
             [searchRequest cfg query content_type])

/-! ## Helper lemmas: substring containment and message distinctness -/

theorem hasSubList_nil (l : List Char) : hasSubList [] l = true := by
  cases l with
  | nil => rfl
  | cons c rest => simp [hasSubList, List.isPrefixOf]

theorem isPrefixOf_append_self (n post : List Char) : n.isPrefixOf (n ++ post) = true := by
  induction n with
  | nil => cases post <;> simp [List.isPrefixOf]
  | cons c cs ih => simp [List.isPrefixOf, ih]

theorem hasSubList_self_append (n post : List Char) : hasSubList n (n ++ post) = true := by
  cases n with
  | nil => exact hasSubList_nil post
  | cons c cs =>
    have h : (c :: cs).isPrefixOf (c :: (cs ++ post)) = true :=
      isPrefixOf_append_self (c :: cs) post
    show hasSubList (c :: cs) (c :: (cs ++ post)) = true
    simp [hasSubList, h]

theorem hasSubList_append_left (n pre l : List Char) (h : hasSubList n l = true) :
    hasSubList n (pre ++ l) = true := by
  induction pre with
  | nil => exact h
  | cons c cs ih => simp [hasSubList, ih]

/-- A string contains any middle factor of an append. -/
theorem strContains_mid (a b c : String) : strContains (a ++ b ++ c) b = true := by
  unfold strContains
  rw [show (a ++ b ++ c).data = a.data ++ (b.data ++ c.data) by
    simp [String.data_append, List.append_assoc]]
  exact hasSubList_append_left _ _ _ (hasSubList_self_append _ _)

/-- The "no match" message embeds the keyword it was built from. -/
theorem noMatchMessage_contains (kw : String) : strContains (noMatchMessage kw) kw = true := by
  unfold strContains
  rw [show (noMatchMessage kw).data
      = ("指定されたキーワード " ++ sq).data
        ++ (kw.data ++ (sq ++ " を含むファイルは見つかりませんでした。").data) by
    simp [noMatchMessage, String.data_append, List.append_assoc]]
  exact hasSubList_append_left _ _ _ (hasSubList_self_append _ _)

theorem ne_of_head (a b : String) (h : a.data.head? ≠ b.data.head?) : a ≠ b :=
  fun e => h (congrArg (fun x => x.data.head?) e)

/-- The two `{"message"}`-shaped outcomes carry distinct texts, for every
keyword: the "no match" message starts with a different character than the
"no results" message. -/
theorem noMatch_ne_noResults (kw : String) : noMatchMessage kw ≠ noResultsMessage := by
  apply ne_of_head
  rw [show (noMatchMessage kw).data.head? = some '指' from rfl]
  decide

/-- `update_file`'s confirmation string differs from its non-success-status
message, for every filename and status. -/
theorem confirm_ne_statusErr (fn : String) (s : Nat) :
    updateConfirm fn ≠ updateStatusErr s := by
  apply ne_of_head
  rw [show (updateConfirm fn).data.head? = some 'F' from rfl]
  rw [show (updateStatusErr s).data.head? = some 'E' from rfl]
  decide

/-! ## Helper lemmas: the candidate scan -/

theorem scan_cons_skip (cfg : Config) (env : Env) (kw : String) (aj : Bool)
    (x : JValue) (l : List JValue) (h : (stepItem cfg env kw aj x).1 = .skip) :
    scanCandidates cfg env kw aj (x :: l)
      = ((scanCandidates cfg env kw aj l).1,
         (stepItem cfg env kw aj x).2 ++ (scanCandidates cfg env kw aj l).2) := by
  rw [scanCandidates, h]

theorem scan_cons_matched (cfg : Config) (env : Env) (kw : String) (aj : Bool)
    (x : JValue) (l : List JValue) (fn : JValue) (c : FileContent)
    (h : (stepItem cfg env kw aj x).1 = .matched fn c) :
    scanCandidates cfg env kw aj (x :: l)
      = (.ok (.found fn c), (stepItem cfg env kw aj x).2) := by
  rw [scanCandidates, h]

theorem scan_cons_raised (cfg : Config) (env : Env) (kw : String) (aj : Bool)
    (x : JValue) (l : List JValue) (e : String)
    (h : (stepItem cfg env kw aj x).1 = .raised e) :
    scanCandidates cfg env kw aj (x :: l)
      = (.error e, (stepItem cfg env kw aj x).2) := by
  rw [scanCandidates, h]

/-- When every candidate is passed over, the scan returns the "no match"
message and its fetch trace is the concatenation, in candidate order, of the
per-candidate traces: every candidate is visited exactly once, in order. -/
theorem scan_all_skip (cfg : Config) (env : Env) (kw : String) (aj : Bool)
    (items : List JValue) (h : ∀ x ∈ items, (stepItem cfg env kw aj x).1 = .skip) :
    scanCandidates cfg env kw aj items
      = (.ok (.message (noMatchMessage kw)),
         (items.map (fun x => (stepItem cfg env kw aj x).2)).flatten) := by
  induction items with
  | nil => simp [scanCandidates]
  | cons x l ih =>
    rw [scan_cons_skip cfg env kw aj x l (h x (List.mem_cons_self x l)),
        ih (fun y hy => h y (List.mem_cons_of_mem x hy))]
    simp

/-- Candidates that are passed over do not change the scan's result. -/
theorem scan_skip_pre (cfg : Config) (env : Env) (kw : String) (aj : Bool)
    (pre l : List JValue) (h : ∀ x ∈ pre, (stepItem cfg env kw aj x).1 = .skip) :
    (scanCandidates cfg env kw aj (pre ++ l)).1 = (scanCandidates cfg env kw aj l).1 := by
  induction pre with
  | nil => rfl
  | cons x p ih =>
    rw [List.cons_append, scan_cons_skip cfg env kw aj x (p ++ l) (h x (List.mem_cons_self x p))]
    exact ih (fun y hy => h y (List.mem_cons_of_mem x hy))

/-- The scan ends in exactly one of three ways: the "no match" message, a
found file, or a raised exception. -/
theorem scan_shapes (cfg : Config) (env : Env) (kw : String) (aj : Bool)
    (items : List JValue) :
    (scanCandidates cfg env kw aj items).1 = .ok (.message (noMatchMessage kw))
    ∨ (∃ fn c, (scanCandidates cfg env kw aj items).1 = .ok (.found fn c))
    ∨ (∃ e, (scanCandidates cfg env kw aj items).1 = .error e) := by
  induction items with
  | nil => left; rfl
  | cons x l ih =>
    cases hs : (stepItem cfg env kw aj x).1 with
    | skip => rw [scan_cons_skip cfg env kw aj x l hs]; exact ih
    | raised e => rw [scan_cons_raised cfg env kw aj x l e hs]; right; right; exact ⟨e, rfl⟩
    | matched fn c =>
      rw [scan_cons_matched cfg env kw aj x l fn c hs]; right; left; exact ⟨fn, c, rfl⟩

/-- Every request a loop iteration issues is a `/vault/` fetch. -/
theorem stepItem_trace (cfg : Config) (env : Env) (kw : String) (aj : Bool)
    (item : JValue) (r : Request) (h : r ∈ (stepItem cfg env kw aj item).2) :
    ∃ s, r = fileRequest cfg s aj := by
  unfold stepItem at h
  split at h
  · simp at h
  · split at h
    · simp at h
    · split at h
      · simp at h
      · split at h
        · simp at h; exact ⟨_, h⟩
        · split at h
          · simp at h; exact ⟨_, h⟩
          · split at h
            · simp at h; exact ⟨_, h⟩
            · split at h <;> (simp at h; exact ⟨_, h⟩)

/-- Every request the scan issues is a `/vault/` fetch. -/
theorem scan_trace (cfg : Config) (env : Env) (kw : String) (aj : Bool)
    (items : List JValue) (r : Request)
    (h : r ∈ (scanCandidates cfg env kw aj items).2) :
    ∃ s, r = fileRequest cfg s aj := by
  induction items with
  | nil => simp [scanCandidates] at h
  | cons x l ih =>
    cases hs : (stepItem cfg env kw aj x).1 with
    | skip =>
      rw [scan_cons_skip cfg env kw aj x l hs] at h
      rcases List.mem_append.mp h with h1 | h2
      · exact stepItem_trace cfg env kw aj x r h1
      · exact ih h2
    | raised e =>
      rw [scan_cons_raised cfg env kw aj x l e hs] at h
      exact stepItem_trace cfg env kw aj x r h
    | matched fn c =>
      rw [scan_cons_matched cfg env kw aj x l fn c hs] at h
      exact stepItem_trace cfg env kw aj x r h

/-! ## Helper lemmas: unfolding the workflow's top level -/

theorem wf_search_exn (cfg : Config) (env : Env) (q kw ct : String) (aj : Bool) (e : String)
    (h : env.respond (searchRequest cfg q ct) = .exn e) :
    search_and_find_matching_file cfg env q kw ct aj
      = (.errorResult (wfErrPre ++ e), [searchRequest cfg q ct]) := by
  simp only [search_and_find_matching_file, h]

theorem wf_search_badstatus (cfg : Config) (env : Env) (q kw ct : String) (aj : Bool)
    (resp : HttpResp) (h : env.respond (searchRequest cfg q ct) = .ok resp)
    (hst : resp.status ≠ 200) :
    search_and_find_matching_file cfg env q kw ct aj
      = (.errorResult ("Search error: status code " ++ toString resp.status),
         [searchRequest cfg q ct]) := by
  simp only [search_and_find_matching_file, h]
  simp [hst]

theorem wf_json_exn (cfg : Config) (env : Env) (q kw ct : String) (aj : Bool)
    (resp : HttpResp) (e : String)
    (h : env.respond (searchRequest cfg q ct) = .ok resp)
    (hst : resp.status = 200) (hjson : resp.jsonVal = .exn e) :
    search_and_find_matching_file cfg env q kw ct aj
      = (.errorResult (wfErrPre ++ e), [searchRequest cfg q ct]) := by
  simp only [search_and_find_matching_file, h]
  simp [hst, hjson]

theorem wf_falsy (cfg : Config) (env : Env) (q kw ct : String) (aj : Bool)
    (resp : HttpResp) (results : JValue)
    (h : env.respond (searchRequest cfg q ct) = .ok resp)
    (hst : resp.status = 200) (hjson : resp.jsonVal = .ok results)
    (htr : pyTruthy results = false) :
    search_and_find_matching_file cfg env q kw ct aj
      = (.message noResultsMessage, [searchRequest cfg q ct]) := by
  simp only [search_and_find_matching_file, h]
  simp [hst, hjson, htr]

theorem wf_scan_ok (cfg : Config) (env : Env) (q kw ct : String) (aj : Bool)
    (resp : HttpResp) (items : List JValue) (r : ToolResult) (t : List Request)
    (h : env.respond (searchRequest cfg q ct) = .ok resp)
    (hst : resp.status = 200) (hjson : resp.jsonVal = .ok (.jarr items))
    (hne : items ≠ [])
    (hscan : scanCandidates cfg env kw aj items = (.ok r, t)) :
    search_and_find_matching_file cfg env q kw ct aj
      = (r, searchRequest cfg q ct :: t) := by
  simp only [search_and_find_matching_file, h]
  cases items with
  | nil => exact absurd rfl hne
  | cons x l => simp [hst, hjson, pyTruthy, hscan]

theorem wf_scan_err (cfg : Config) (env : Env) (q kw ct : String) (aj : Bool)
    (resp : HttpResp) (items : List JValue) (e : String) (t : List Request)
    (h : env.respond (searchRequest cfg q ct) = .ok resp)
    (hst : resp.status = 200) (hjson : resp.jsonVal = .ok (.jarr items))
    (hne : items ≠ [])
    (hscan : scanCandidates cfg env kw aj items = (.error e, t)) :
    search_and_find_matching_file cfg env q kw ct aj
      = (.errorResult (wfErrPre ++ e), searchRequest cfg q ct :: t) := by
  simp only [search_and_find_matching_file, h]
  cases items with
  | nil => exact absurd rfl hne
  | cons x l => simp [hst, hjson, pyTruthy, hscan]

/-- Every request the workflow issues is the search `POST` or a `/vault/` fetch. -/
theorem wf_trace (cfg : Config) (env : Env) (q kw ct : String) (aj : Bool) (r : Request)
    (h : r ∈ (search_and_find_matching_file cfg env q kw ct aj).2) :
    r = searchRequest cfg q ct ∨ ∃ s, r = fileRequest cfg s aj := by
  unfold search_and_find_matching_file at h
  split at h
  · simp at h; exact .inl h
  · split at h
    · simp at h; exact .inl h
    · split at h
      · simp at h; exact .inl h
      · split at h
        · simp at h; exact .inl h
        · split at h
          · split at h <;>
              (rename_i heq
               simp at h
               rcases h with h | h
               · exact .inl h
               · exact .inr (scan_trace cfg env kw aj _ r (by rw [heq]; exact h)))
          · simp at h; exact .inl h

/-! ## Concrete fixtures for witnesses and counterexamples -/

def cfg0 : Config := ⟨"KEY0", "http://rest", "http://omni"⟩

/-- A search-result item whose file path is `A.md`. -/
def itemA : JValue := .jobj [("file", .jobj [("path", .jstr "A.md")])]

/-- A search-result item whose file path is `B.md`. -/
def itemB : JValue := .jobj [("file", .jobj [("path", .jstr "B.md")])]

/-- A search-result item with no `path` key under `file`. -/
def itemNoPath : JValue := .jobj [("file", .jobj [("tags", .jarr [])])]

/-- The search succeeds with `[itemA, itemB]`; fetching `A.md` returns a 404;
fetching `B.md` succeeds with a body containing `KEY`. -/
def envAB : Env := ⟨fun req =>
  if req.url = "http://rest/search" then .ok ⟨200, "", .ok (.jarr [itemA, itemB])⟩
  else if req.url = "http://rest/vault/A.md" then .ok ⟨404, "", .exn "nope"⟩
  else if req.url = "http://rest/vault/B.md" then .ok ⟨200, "hello KEY world", .exn "nojson"⟩
  else .exn "unexpected"⟩

/-- The search succeeds with `[itemA, itemB]`; fetching `A.md` raises a
transport exception; fetching `B.md` would succeed with a matching body. -/
def envFetchExn : Env := ⟨fun req =>
  if req.url = "http://rest/search" then .ok ⟨200, "", .ok (.jarr [itemA, itemB])⟩
  else if req.url = "http://rest/vault/A.md" then .exn "timeout"
  else .ok ⟨200, "hello KEY world", .exn "nojson"⟩⟩

/-- The search succeeds with `[itemA, itemB]`; both fetched bodies lack the
keyword. -/
def envNoMatch : Env := ⟨fun req =>
  if req.url = "http://rest/search" then .ok ⟨200, "", .ok (.jarr [itemA, itemB])⟩
  else if req.url = "http://rest/vault/A.md" then .ok ⟨200, "alpha", .exn "nojson"⟩
  else if req.url = "http://rest/vault/B.md" then .ok ⟨200, "beta", .exn "nojson"⟩
  else .exn "unexpected"⟩

/-- Every request succeeds with an empty search-result list. -/
def envEmpty : Env := ⟨fun _ => .ok ⟨200, "", .ok (.jarr [])⟩⟩

/-- The search raises a transport exception. -/
def envSearchExn : Env := ⟨fun _ => .exn "boom"⟩

/-- Every request is answered with status 500. -/
def env500 : Env := ⟨fun _ => .ok ⟨500, "", .exn "x"⟩⟩

/-- Every request is answered with status 204 and an empty body. -/
def env204 : Env := ⟨fun _ => .ok ⟨204, "", .exn "x"⟩⟩

/-- Every request is answered with status 200 and an empty body. -/
def env200 : Env := ⟨fun _ => .ok ⟨200, "", .exn "x"⟩⟩

/-- A note `note.md` with front-matter: the structured representation carries
a `frontmatter` field, the markdown rendering is the raw text. -/
def envNote : Env := ⟨fun _ =>
  .ok ⟨200, "# Hello\nbody",
       .ok (.jobj [("content", .jstr "# Hello\nbody"),
                   ("frontmatter", .jobj [("title", .jstr "T")])])⟩⟩

/-! ## Claims -/

/-- **C1** — For every search-result list and every `match_keyword`,
`search_and_find_matching_file` returns the first candidate, in search-result
order, whose fetched content contains `match_keyword` as a literal substring.
The candidates before it are exactly those the loop passes over
(`stepItem … = .skip`): a falsy/absent path, a fetch answered with a
non-success status (which therefore does not prevent a later candidate from
being returned), or a fetched content without the keyword.  The matching
candidate's step is `.matched fn c`, i.e. its path is truthy, its fetch
returned 200 and its (stringified) content contains the keyword; the result
names that file and content. -/
theorem spec_first_matching_candidate
    (cfg : Config) (env : Env) (q kw ct : String) (aj : Bool)
    (pre : List JValue) (item : JValue) (rest : List JValue)
    (resp : HttpResp) (fn : JValue) (c : FileContent)
    (hresp : env.respond (searchRequest cfg q ct) = .ok resp)
    (hst : resp.status = 200)
    (hjson : resp.jsonVal = .ok (.jarr (pre ++ item :: rest)))
    (hpre : ∀ x ∈ pre, (stepItem cfg env kw aj x).1 = .skip)
    (hmatch : (stepItem cfg env kw aj item).1 = .matched fn c) :
    (search_and_find_matching_file cfg env q kw ct aj).1 = .found fn c := by
  have h1 : (scanCandidates cfg env kw aj (pre ++ item :: rest)).1 = .ok (.found fn c) := by
    rw [scan_skip_pre cfg env kw aj pre (item :: rest) hpre,
        scan_cons_matched cfg env kw aj item rest fn c hmatch]
  have hscan : scanCandidates cfg env kw aj (pre ++ item :: rest)
      = (.ok (.found fn c), (scanCandidates cfg env kw aj (pre ++ item :: rest)).2) := by
    rw [← h1]
  rw [wf_scan_ok cfg env q kw ct aj resp (pre ++ item :: rest) (.found fn c) _
      hresp hst hjson (by simp) hscan]

/-- **C1 witness** — the claim's own example `[A(fetch fails), B(contains
keyword)]`: `A.md` is answered with a 404, `B.md` with a 200 body containing
`KEY`; the result names `B.md` and its content. -/
theorem spec_first_matching_candidate_witness :
    (search_and_find_matching_file cfg0 envAB "q" "KEY" "ct" false).1
      = .found (.jstr "B.md") (.textContent "hello KEY world") :=
  spec_first_matching_candidate cfg0 envAB "q" "KEY" "ct" false
    [itemA] itemB [] ⟨200, "", .ok (.jarr [itemA, itemB])⟩
    (.jstr "B.md") (.textContent "hello KEY world")
    rfl rfl rfl
    (by intro x hx; rw [List.mem_singleton] at hx; subst hx; rfl)
    rfl

/-- **C2** — If the search call succeeds (status 200) and its parsed body is
the empty list, the workflow returns the distinct "no results" message —
which differs from the "no match" message for every keyword, and, being a
`message`, is neither a failure (`errorResult`) nor a `found` result. -/
theorem spec_empty_results_outcome
    (cfg : Config) (env : Env) (q kw ct : String) (aj : Bool) (resp : HttpResp)
    (hresp : env.respond (searchRequest cfg q ct) = .ok resp)
    (hst : resp.status = 200)
    (hjson : resp.jsonVal = .ok (.jarr [])) :
    (search_and_find_matching_file cfg env q kw ct aj).1 = .message noResultsMessage
    ∧ noResultsMessage ≠ noMatchMessage kw := by
  refine ⟨?_, (noMatch_ne_noResults kw).symm⟩
  rw [wf_falsy cfg env q kw ct aj resp (.jarr []) hresp hst hjson rfl]

/-- **C2 witness** — a concrete environment answering the search with `[]`. -/
theorem spec_empty_results_outcome_witness :
    (search_and_find_matching_file cfg0 envEmpty "q" "KEY" "ct" false).1
      = .message noResultsMessage
    ∧ noResultsMessage ≠ noMatchMessage "KEY" :=
  spec_empty_results_outcome cfg0 envEmpty "q" "KEY" "ct" false
    ⟨200, "", .ok (.jarr [])⟩ rfl rfl rfl

/-- **C3** — If the search succeeds with a non-empty result set and every
candidate is passed over (in particular none of the fetched contents contains
`match_keyword`), the workflow returns the "no match" message naming the
keyword, and its request trace is the search request followed by the
per-candidate fetch traces concatenated in candidate order: every candidate
is visited exactly once, in search-result order. -/
theorem spec_no_match_visits_all
    (cfg : Config) (env : Env) (q kw ct : String) (aj : Bool)
    (resp : HttpResp) (items : List JValue)
    (hresp : env.respond (searchRequest cfg q ct) = .ok resp)
    (hst : resp.status = 200)
    (hjson : resp.jsonVal = .ok (.jarr items))
    (hne : items ≠ [])
    (hskip : ∀ x ∈ items, (stepItem cfg env kw aj x).1 = .skip) :
    search_and_find_matching_file cfg env q kw ct aj
      = (.message (noMatchMessage kw),
         searchRequest cfg q ct
           :: (items.map (fun x => (stepItem cfg env kw aj x).2)).flatten)
    ∧ strContains (noMatchMessage kw) kw = true := by
  refine ⟨?_, noMatchMessage_contains kw⟩
  rw [wf_scan_ok cfg env q kw ct aj resp items (.message (noMatchMessage kw)) _
      hresp hst hjson hne (scan_all_skip cfg env kw aj items hskip)]

/-- **C3 witness** — both candidates fetched (200) but neither body contains
`KEY`: the result is the "no match" message and the trace shows both
candidates visited once, in order. -/
theorem spec_no_match_visits_all_witness :
    search_and_find_matching_file cfg0 envNoMatch "q" "KEY" "ct" false
      = (.message (noMatchMessage "KEY"),
         [searchRequest cfg0 "q" "ct",
          fileRequest cfg0 "A.md" false, fileRequest cfg0 "B.md" false])
    ∧ strContains (noMatchMessage "KEY") "KEY" = true :=
  spec_no_match_visits_all cfg0 envNoMatch "q" "KEY" "ct" false
    ⟨200, "", .ok (.jarr [itemA, itemB])⟩ [itemA, itemB]
    rfl rfl rfl (by simp)
    (by
      intro x hx
      rw [List.mem_cons, List.mem_singleton] at hx
      rcases hx with hx | hx <;> (subst hx; rfl))

/-- A string contains its own suffix. -/
theorem strContains_suffix (a b : String) : strContains (a ++ b) b = true := by
  unfold strContains
  rw [String.data_append]
  exact hasSubList_append_left _ _ _ (by simpa using hasSubList_self_append b.data [])

/-- **C4 counterexample** — the claim says a per-candidate file-fetch failure
is downgraded to a warning and that only the initial search failure is fatal.
Here the initial search succeeds (status 200, candidates `[A, B]`), the fetch
of `A.md` raises a transport exception (`httpx` raising inside the `try`
block), and `B.md` would match — yet the workflow aborts with the `error`
outcome instead of continuing to `B`: a per-candidate transport failure is
fatal too (`src/main.py` line 197 is inside the `try` of line 171; only a
non-200 *status* is downgraded at lines 198-200). -/
theorem spec_failure_policy_cex :
    envFetchExn.respond (searchRequest cfg0 "q" "ct")
      = .ok ⟨200, "", .ok (.jarr [itemA, itemB])⟩
    ∧ (search_and_find_matching_file cfg0 envFetchExn "q" "KEY" "ct" false).1
        = .errorResult (wfErrPre ++ "timeout")
    ∧ (search_and_find_matching_file cfg0 envFetchExn "q" "KEY" "ct" false).1
        ≠ .found (.jstr "B.md") (.textContent "hello KEY world") :=
  ⟨rfl, rfl, fun h => ToolResult.noConfusion h⟩

/-- **C4 (amended)** — If the initial search call fails (transport exception
or non-success status), the workflow returns a failure immediately.  A
per-candidate fetch answered with a non-success HTTP status is downgraded to
a logged warning and the scan continues with the next candidate.  But a
per-candidate fetch that raises (e.g. a transport failure) also aborts the
scan, and such a scan exception surfaces as the workflow's failure outcome —
so the initial search failure is not the only fatal failure. -/
theorem spec_failure_policy_amended
    (cfg : Config) (env : Env) (q kw ct : String) (aj : Bool)
    (item : JValue) (l : List JValue) (e : String) :
    (env.respond (searchRequest cfg q ct) = .exn e →
       (search_and_find_matching_file cfg env q kw ct aj).1
         = .errorResult (wfErrPre ++ e))
    ∧ (∀ resp, env.respond (searchRequest cfg q ct) = .ok resp → resp.status ≠ 200 →
       (search_and_find_matching_file cfg env q kw ct aj).1
         = .errorResult ("Search error: status code " ++ toString resp.status))
    ∧ ((stepItem cfg env kw aj item).1 = .skip →
       (scanCandidates cfg env kw aj (item :: l)).1 = (scanCandidates cfg env kw aj l).1)
    ∧ ((stepItem cfg env kw aj item).1 = .raised e →
       (scanCandidates cfg env kw aj (item :: l)).1 = .error e)
    ∧ (∀ resp items t, env.respond (searchRequest cfg q ct) = .ok resp →
       resp.status = 200 → resp.jsonVal = .ok (.jarr items) → items ≠ [] →
       scanCandidates cfg env kw aj items = (.error e, t) →
       (search_and_find_matching_file cfg env q kw ct aj).1
         = .errorResult (wfErrPre ++ e)) := by
  refine ⟨?_, ?_, ?_, ?_, ?_⟩
  · intro h; rw [wf_search_exn cfg env q kw ct aj e h]
  · intro resp h hst; rw [wf_search_badstatus cfg env q kw ct aj resp h hst]
  · intro hs; rw [scan_cons_skip cfg env kw aj item l hs]
  · intro hs; rw [scan_cons_raised cfg env kw aj item l e hs]
  · intro resp items t h hst hjson hne hscan
    rw [wf_scan_err cfg env q kw ct aj resp items e t h hst hjson hne hscan]

/-- **C4 (amended) witness** — the five clauses at concrete inputs: a
search-transport failure, a search status 500, the skipped 404 candidate, and
the fatal per-candidate transport exception (at the scan and workflow level). -/
theorem spec_failure_policy_amended_witness :
    (search_and_find_matching_file cfg0 envSearchExn "q" "KEY" "ct" false).1
      = .errorResult (wfErrPre ++ "boom")
    ∧ (search_and_find_matching_file cfg0 env500 "q" "KEY" "ct" false).1
      = .errorResult ("Search error: status code " ++ toString (500 : Nat))
    ∧ (scanCandidates cfg0 envAB "KEY" false (itemA :: [itemB])).1
      = (scanCandidates cfg0 envAB "KEY" false [itemB]).1
    ∧ (scanCandidates cfg0 envFetchExn "KEY" false (itemA :: [itemB])).1
      = .error "timeout"
    ∧ (search_and_find_matching_file cfg0 envFetchExn "q" "KEY" "ct" false).1
      = .errorResult (wfErrPre ++ "timeout") :=
  ⟨(spec_failure_policy_amended cfg0 envSearchExn "q" "KEY" "ct" false itemA [] "boom").1 rfl,
   (spec_failure_policy_amended cfg0 env500 "q" "KEY" "ct" false itemA [] "x").2.1
     ⟨500, "", .exn "x"⟩ rfl (by decide),
   (spec_failure_policy_amended cfg0 envAB "q" "KEY" "ct" false itemA [itemB] "x").2.2.1 rfl,
   (spec_failure_policy_amended cfg0 envFetchExn "q" "KEY" "ct" false
      itemA [itemB] "timeout").2.2.2.1 rfl,
   (spec_failure_policy_amended cfg0 envFetchExn "q" "KEY" "ct" false
      itemA [itemB] "timeout").2.2.2.2 ⟨200, "", .ok (.jarr [itemA, itemB])⟩
     [itemA, itemB] [fileRequest cfg0 "A.md" false] rfl rfl rfl (by simp) rfl⟩

/-- **C5 counterexample** — the claim extends "every non-success status yields
a failure naming the code" to `search_and_find_matching_file`; but when the
remote service answers a per-candidate fetch with 404 and a later candidate
matches, the workflow returns the success shape, not a failure: the
claimed property fails for the workflow's fetch statuses. -/
theorem spec_adapter_status_cex :
    envAB.respond (fileRequest cfg0 "A.md" false) = .ok ⟨404, "", .exn "nope"⟩
    ∧ (search_and_find_matching_file cfg0 envAB "q" "KEY" "ct" false).1
        = .found (.jstr "B.md") (.textContent "hello KEY world")
    ∧ (search_and_find_matching_file cfg0 envAB "q" "KEY" "ct" false).1
        ≠ .errorResult ("Error: Received status code 404 when retrieving file.") :=
  ⟨rfl, rfl, fun h => ToolResult.noConfusion h⟩

/-- **C5 (amended)** — Every *single-call* adapter (`get_status`,
`omni_search`, `get_active_note`, `get_file`, `update_file`) returns, for
every non-success status, its failure outcome whose message contains the
status code, never a success-shaped result; for
`search_and_find_matching_file` this holds for the status of the *initial
search call* — a non-success status on a per-candidate fetch is skipped
instead (see the counterexample). -/
theorem spec_adapter_status_amended
    (cfg : Config) (env : Env) (q fn c qy kw ct : String) (aj : Bool) (resp : HttpResp) :
    (env.respond (statusRequest cfg) = .ok resp → resp.status ≠ 200 →
       (get_status cfg env).1
         = .errDict ("Error: Received status code " ++ toString resp.status
             ++ " from Obsidian API.")
       ∧ strContains ("Error: Received status code " ++ toString resp.status
             ++ " from Obsidian API.") (toString resp.status) = true)
    ∧ (env.respond (omniRequest cfg q) = .ok resp → resp.status ≠ 200 →
       (omni_search cfg env q).1
         = .errList ("Error: Received status code " ++ toString resp.status
             ++ " from Omni Search.")
       ∧ strContains ("Error: Received status code " ++ toString resp.status
             ++ " from Omni Search.") (toString resp.status) = true)
    ∧ (env.respond (activeRequest cfg aj) = .ok resp → resp.status ≠ 200 →
       (get_active_note cfg env aj).1
         = .errDict ("Error: Received status code " ++ toString resp.status
             ++ " when retrieving active note.")
       ∧ strContains ("Error: Received status code " ++ toString resp.status
             ++ " when retrieving active note.") (toString resp.status) = true)
    ∧ (env.respond (getFileRequest cfg fn aj) = .ok resp → resp.status ≠ 200 →
       (get_file cfg env fn aj).1
         = .errDict ("Error: Received status code " ++ toString resp.status
             ++ " when retrieving file.\n url: " ++ cfg.baseUrlRest ++ "/vault/" ++ fn)
       ∧ strContains ("Error: Received status code " ++ toString resp.status
             ++ " when retrieving file.\n url: " ++ cfg.baseUrlRest ++ "/vault/" ++ fn)
           (toString resp.status) = true)
    ∧ (env.respond (updateRequest cfg fn c) = .ok resp →
       resp.status ≠ 200 → resp.status ≠ 204 →
       (update_file cfg env fn c).1 = updateStatusErr resp.status
       ∧ strContains (updateStatusErr resp.status) (toString resp.status) = true
       ∧ (update_file cfg env fn c).1 ≠ updateConfirm fn)
    ∧ (env.respond (searchRequest cfg qy ct) = .ok resp → resp.status ≠ 200 →
       (search_and_find_matching_file cfg env qy kw ct aj).1
         = .errorResult ("Search error: status code " ++ toString resp.status)
       ∧ strContains ("Search error: status code " ++ toString resp.status)
           (toString resp.status) = true) := by
  refine ⟨?_, ?_, ?_, ?_, ?_, ?_⟩
  · intro h hst
    refine ⟨?_, strContains_mid _ _ _⟩
    unfold get_status; rw [h]; simp [hst]
  · intro h hst
    refine ⟨?_, strContains_mid _ _ _⟩
    unfold omni_search; rw [h]; simp [hst]
  · intro h hst
    refine ⟨?_, strContains_mid _ _ _⟩
    unfold get_active_note; rw [h]; simp [hst]
  · intro h hst
    refine ⟨?_, ?_⟩
    · unfold get_file; rw [h]; simp [hst]
    · rw [show "Error: Received status code " ++ toString resp.status
            ++ " when retrieving file.\n url: " ++ cfg.baseUrlRest ++ "/vault/" ++ fn
          = "Error: Received status code " ++ toString resp.status
            ++ (" when retrieving file.\n url: " ++ cfg.baseUrlRest ++ "/vault/" ++ fn) by
        simp [String.append_assoc]]
      exact strContains_mid _ _ _
  · intro h hst hst2
    have hres : (update_file cfg env fn c).1 = updateStatusErr resp.status := by
      unfold update_file; rw [h]; simp [hst, hst2]
    refine ⟨hres, ?_, ?_⟩
    · rw [updateStatusErr]; exact strContains_mid _ _ _
    · rw [hres]; exact fun he => confirm_ne_statusErr fn resp.status he.symm
  · intro h hst
    refine ⟨?_, strContains_suffix _ _⟩
    rw [wf_search_badstatus cfg env qy kw ct aj resp h hst]

/-- **C5 (amended) witness** — every adapter against a service answering 500:
each returns its failure outcome naming the code. -/
theorem spec_adapter_status_amended_witness :
    (get_status cfg0 env500).1
      = .errDict ("Error: Received status code " ++ toString (500 : Nat)
          ++ " from Obsidian API.")
    ∧ (omni_search cfg0 env500 "q").1
      = .errList ("Error: Received status code " ++ toString (500 : Nat)
          ++ " from Omni Search.")
    ∧ (get_active_note cfg0 env500 false).1
      = .errDict ("Error: Received status code " ++ toString (500 : Nat)
          ++ " when retrieving active note.")
    ∧ (get_file cfg0 env500 "a.md" false).1
      = .errDict ("Error: Received status code " ++ toString (500 : Nat)
          ++ " when retrieving file.\n url: " ++ "http://rest" ++ "/vault/" ++ "a.md")
    ∧ (update_file cfg0 env500 "a.md" "x").1 = updateStatusErr 500
    ∧ (search_and_find_matching_file cfg0 env500 "q" "KEY" "ct" false).1
      = .errorResult ("Search error: status code " ++ toString (500 : Nat)) :=
  ⟨((spec_adapter_status_amended cfg0 env500 "q" "a.md" "x" "q" "KEY" "ct" false
      ⟨500, "", .exn "x"⟩).1 rfl (by decide)).1,
   ((spec_adapter_status_amended cfg0 env500 "q" "a.md" "x" "q" "KEY" "ct" false
      ⟨500, "", .exn "x"⟩).2.1 rfl (by decide)).1,
   ((spec_adapter_status_amended cfg0 env500 "q" "a.md" "x" "q" "KEY" "ct" false
      ⟨500, "", .exn "x"⟩).2.2.1 rfl (by decide)).1,
   ((spec_adapter_status_amended cfg0 env500 "q" "a.md" "x" "q" "KEY" "ct" false
      ⟨500, "", .exn "x"⟩).2.2.2.1 rfl (by decide)).1,
   ((spec_adapter_status_amended cfg0 env500 "q" "a.md" "x" "q" "KEY" "ct" false
      ⟨500, "", .exn "x"⟩).2.2.2.2.1 rfl (by decide) (by decide)).1,
   ((spec_adapter_status_amended cfg0 env500 "q" "a.md" "x" "q" "KEY" "ct" false
      ⟨500, "", .exn "x"⟩).2.2.2.2.2 rfl (by decide)).1⟩

/-- **C6** — `update_file` treats exactly the statuses 200 and 204 as
success: the result is the confirmation string naming the filename iff the
response status is 200 or 204 (otherwise it is the distinct status-error
string).  The confirmation string contains the filename, and re-invoking the
adapter on the same filename with different content (the server again
answering with a success status) returns the same success confirmation: an
idempotent overwrite at the adapter's boundary, not an append. -/
theorem spec_update_file_success_set
    (cfg : Config) (env env2 : Env) (fn c c2 : String) (resp resp2 : HttpResp)
    (h : env.respond (updateRequest cfg fn c) = .ok resp)
    (h2 : env2.respond (updateRequest cfg fn c2) = .ok resp2) :
    ((update_file cfg env fn c).1 = updateConfirm fn
       ↔ resp.status = 200 ∨ resp.status = 204)
    ∧ strContains (updateConfirm fn) fn = true
    ∧ (resp.status = 200 ∨ resp.status = 204 →
       resp2.status = 200 ∨ resp2.status = 204 →
       (update_file cfg env fn c).1 = updateConfirm fn
       ∧ (update_file cfg env2 fn c2).1 = updateConfirm fn) := by
  have key : ∀ (env' : Env) (c' : String) (resp' : HttpResp),
      env'.respond (updateRequest cfg fn c') = .ok resp' →
      (update_file cfg env' fn c').1
        = if resp'.status = 200 ∨ resp'.status = 204 then updateConfirm fn
          else updateStatusErr resp'.status := by
    intro env' c' resp' h'
    unfold update_file
    rw [h']
    by_cases hs : resp'.status = 200 ∨ resp'.status = 204
    · rcases hs with hs | hs <;> simp [hs]
    · push_neg at hs
      simp [hs.1, hs.2]
  refine ⟨?_, ?_, ?_⟩
  · rw [key env c resp h]
    by_cases hs : resp.status = 200 ∨ resp.status = 204
    · simp [hs]
    · simp only [if_neg hs]
      constructor
      · intro he; exact absurd he.symm (confirm_ne_statusErr fn resp.status)
      · intro he; exact absurd he hs
  · rw [show updateConfirm fn
        = ("File " ++ sq) ++ fn ++ (sq ++ " updated successfully.") by
      simp [updateConfirm, String.append_assoc]]
    exact strContains_mid _ _ _
  · intro hs hs2
    exact ⟨by rw [key env c resp h]; simp [hs], by rw [key env2 c2 resp2 h2]; simp [hs2]⟩

/-- **C6 witness** — a fresh `fresh.md` written with `"# Hello"` (server
answers 204), then re-written with different content (server answers 200):
both invocations return the success confirmation naming the filename. -/
theorem spec_update_file_success_set_witness :
    (update_file cfg0 env204 "fresh.md" "# Hello").1 = updateConfirm "fresh.md"
    ∧ (update_file cfg0 env200 "fresh.md" "other content").1 = updateConfirm "fresh.md" :=
  (spec_update_file_success_set cfg0 env204 env200 "fresh.md" "# Hello" "other content"
    ⟨204, "", .exn "x"⟩ ⟨200, "", .exn "x"⟩ rfl rfl).2.2 (Or.inr rfl) (Or.inl rfl)

/-- **C7** — `get_file` with `as_json = true` requests the structured note
representation (`Accept: application/vnd.olrapi.note+json`) and returns the
parsed structured body verbatim — so whatever front-matter metadata the body
carries is present in the result; with `as_json = false` on the same file it
requests `Accept: text/markdown` and returns only `response.text`, a plain
string in which no metadata fields exist. -/
theorem spec_get_file_as_json
    (cfg : Config) (env env2 : Env) (fn : String) (resp resp2 : HttpResp) (v : JValue)
    (h : env.respond (getFileRequest cfg fn true) = .ok resp)
    (hst : resp.status = 200) (hv : resp.jsonVal = .ok v)
    (h2 : env2.respond (getFileRequest cfg fn false) = .ok resp2)
    (hst2 : resp2.status = 200) :
    List.lookup "Accept" (getFileRequest cfg fn true).headers
      = some "application/vnd.olrapi.note+json"
    ∧ List.lookup "Accept" (getFileRequest cfg fn false).headers = some "text/markdown"
    ∧ (get_file cfg env fn true).1 = .jsonOut v
    ∧ (get_file cfg env2 fn false).1 = .textOut resp2.text := by
  refine ⟨by simp [getFileRequest, List.lookup],
          by simp [getFileRequest, List.lookup], ?_, ?_⟩
  · unfold get_file; rw [h]; simp [hst, hv]
  · unfold get_file; rw [h2]; simp [hst2]

/-- **C7 witness** — a note with front-matter (`title: T`): `as_json = true`
returns the structured body including the `frontmatter` field; `as_json =
false` returns only the markdown text. -/
theorem spec_get_file_as_json_witness :
    List.lookup "Accept" (getFileRequest cfg0 "note.md" true).headers
      = some "application/vnd.olrapi.note+json"
    ∧ List.lookup "Accept" (getFileRequest cfg0 "note.md" false).headers
      = some "text/markdown"
    ∧ (get_file cfg0 envNote "note.md" true).1
      = .jsonOut (.jobj [("content", .jstr "# Hello\nbody"),
                         ("frontmatter", .jobj [("title", .jstr "T")])])
    ∧ (get_file cfg0 envNote "note.md" false).1 = .textOut "# Hello\nbody" :=
  spec_get_file_as_json cfg0 envNote envNote "note.md"
    ⟨200, "# Hello\nbody",
     .ok (.jobj [("content", .jstr "# Hello\nbody"),
                 ("frontmatter", .jobj [("title", .jstr "T")])])⟩
    ⟨200, "# Hello\nbody",
     .ok (.jobj [("content", .jstr "# Hello\nbody"),
                 ("frontmatter", .jobj [("title", .jstr "T")])])⟩
    (.jobj [("content", .jstr "# Hello\nbody"),
            ("frontmatter", .jobj [("title", .jstr "T")])])
    rfl rfl rfl rfl rfl

/-- **C8** — Every request built for the note-API — by `get_status`,
`get_active_note`, `get_file`, `update_file`, the workflow's search `POST`
and each of its per-candidate `/vault/` fetches — carries the header
`Authorization: Bearer <token>`; the `omni_search` request to the search
service carries no auth header.  The last clause covers the workflow's whole
request trace: every request it actually issues carries the bearer header. -/
theorem spec_auth_headers
    (cfg : Config) (env : Env) (q qy kw ct fn c : String) (aj : Bool) :
    List.lookup "Authorization" (statusRequest cfg).headers = some ("Bearer " ++ cfg.apiKey)
    ∧ List.lookup "Authorization" (activeRequest cfg aj).headers
        = some ("Bearer " ++ cfg.apiKey)
    ∧ List.lookup "Authorization" (getFileRequest cfg fn aj).headers
        = some ("Bearer " ++ cfg.apiKey)
    ∧ List.lookup "Authorization" (updateRequest cfg fn c).headers
        = some ("Bearer " ++ cfg.apiKey)
    ∧ List.lookup "Authorization" (searchRequest cfg qy ct).headers
        = some ("Bearer " ++ cfg.apiKey)
    ∧ List.lookup "Authorization" (fileRequest cfg fn aj).headers
        = some ("Bearer " ++ cfg.apiKey)
    ∧ List.lookup "Authorization" (omniRequest cfg q).headers = none
    ∧ (∀ r ∈ (search_and_find_matching_file cfg env qy kw ct aj).2,
        List.lookup "Authorization" r.headers = some ("Bearer " ++ cfg.apiKey)) := by
  refine ⟨by simp [statusRequest, List.lookup],
          by cases aj <;> simp [activeRequest, List.lookup],
          by simp [getFileRequest, List.lookup],
          by simp [updateRequest, List.lookup],
          by simp [searchRequest, List.lookup],
          by simp [fileRequest, List.lookup],
          by simp [omniRequest, List.lookup], ?_⟩
  intro r hr
  rcases wf_trace cfg env qy kw ct aj r hr with h | ⟨s, h⟩
  · subst h; simp [searchRequest, List.lookup]
  · subst h; simp [fileRequest, List.lookup]

/-- **C8 witness** — concrete instances: the status request carries the
bearer header, the omni-search request carries none, and a fetch request
actually issued by a concrete workflow run carries the bearer header. -/
theorem spec_auth_headers_witness :
    List.lookup "Authorization" (statusRequest cfg0).headers
      = some ("Bearer " ++ cfg0.apiKey)
    ∧ List.lookup "Authorization" (omniRequest cfg0 "q").headers = none
    ∧ List.lookup "Authorization" (fileRequest cfg0 "B.md" false).headers
      = some ("Bearer " ++ cfg0.apiKey) :=
  ⟨(spec_auth_headers cfg0 envAB "q" "q" "KEY" "ct" "B.md" "c" false).1,
   (spec_auth_headers cfg0 envAB "q" "q" "KEY" "ct" "B.md" "c" false).2.2.2.2.2.2.1,
   (spec_auth_headers cfg0 envAB "q" "q" "KEY" "ct" "B.md" "c" false).2.2.2.2.2.2.2
     (fileRequest cfg0 "B.md" false) (by decide)⟩

/-- **C9** — A candidate whose extracted file path is absent
(`item.get("file", {}).get("path")` returns `None`) is skipped without any
file fetch being issued (its step is `(.skip, [])`, an empty request trace),
and the scan of the remaining candidates is unchanged — the malformed entry
is never fatal. -/
theorem spec_absent_path_skipped
    (cfg : Config) (env : Env) (kw : String) (aj : Bool)
    (item fileVal : JValue) (l : List JValue)
    (hfile : pyGet item "file" (.jobj []) = .ok fileVal)
    (hpath : pyGet fileVal "path" .jnull = .ok .jnull) :
    stepItem cfg env kw aj item = (.skip, [])
    ∧ scanCandidates cfg env kw aj (item :: l) = scanCandidates cfg env kw aj l := by
  have hstep : stepItem cfg env kw aj item = (.skip, []) := by
    unfold stepItem; simp [hfile, hpath, pyTruthy]
  refine ⟨hstep, ?_⟩
  rw [scan_cons_skip cfg env kw aj item l (by rw [hstep])]
  rw [hstep]
  simp

/-- **C9 witness** — a candidate whose `file` object has no `path` key,
followed by a normal candidate: the scan is exactly the scan of the tail. -/
theorem spec_absent_path_skipped_witness :
    stepItem cfg0 envNoMatch "KEY" false itemNoPath = (.skip, [])
    ∧ scanCandidates cfg0 envNoMatch "KEY" false (itemNoPath :: [itemB])
        = scanCandidates cfg0 envNoMatch "KEY" false [itemB] :=
  spec_absent_path_skipped cfg0 envNoMatch "KEY" false itemNoPath
    (.jobj [("tags", .jarr [])]) [itemB] rfl rfl

/-- **C10** — For every configuration, environment behaviour (including
raised exceptions) and arguments, `search_and_find_matching_file` returns a
dict of exactly one of three shapes: `{"filename", "content"}` (`found`),
`{"message"}` (either the fixed "no results" text or the "no match" text) or
`{"error"}` — no exception propagates (the embedding's total function is the
adapter's behaviour after its catch-all handler).  The two `message` outcomes
are distinguished only by their text: the no-match message embeds the
keyword, and it differs from the fixed no-results message for every
keyword. -/
theorem spec_result_shapes
    (cfg : Config) (env : Env) (q kw ct : String) (aj : Bool) :
    ((∃ fnv cont, (search_and_find_matching_file cfg env q kw ct aj).1 = .found fnv cont)
      ∨ (search_and_find_matching_file cfg env q kw ct aj).1 = .message noResultsMessage
      ∨ (search_and_find_matching_file cfg env q kw ct aj).1 = .message (noMatchMessage kw)
      ∨ (∃ m, (search_and_find_matching_file cfg env q kw ct aj).1 = .errorResult m))
    ∧ strContains (noMatchMessage kw) kw = true
    ∧ noMatchMessage kw ≠ noResultsMessage := by
  refine ⟨?_, noMatchMessage_contains kw, noMatch_ne_noResults kw⟩
  cases h : env.respond (searchRequest cfg q ct) with
  | exn e =>
    rw [wf_search_exn cfg env q kw ct aj e h]
    right; right; right; exact ⟨_, rfl⟩
  | ok resp =>
    by_cases hst : resp.status = 200
    · cases hj : resp.jsonVal with
      | exn e =>
        rw [wf_json_exn cfg env q kw ct aj resp e h hst hj]
        right; right; right; exact ⟨_, rfl⟩
      | ok results =>
        by_cases htr : pyTruthy results = true
        · cases results with
          | jarr items =>
            have hne : items ≠ [] := by
              intro he; subst he; simp [pyTruthy] at htr
            rcases scan_shapes cfg env kw aj items with hs | ⟨fn2, c2, hs⟩ | ⟨e, hs⟩
            · have hscan : scanCandidates cfg env kw aj items
                  = (.ok (.message (noMatchMessage kw)),
                     (scanCandidates cfg env kw aj items).2) := by rw [← hs]
              rw [wf_scan_ok cfg env q kw ct aj resp items _ _ h hst hj hne hscan]
              right; right; left; rfl
            · have hscan : scanCandidates cfg env kw aj items
                  = (.ok (.found fn2 c2),
                     (scanCandidates cfg env kw aj items).2) := by rw [← hs]
              rw [wf_scan_ok cfg env q kw ct aj resp items _ _ h hst hj hne hscan]
              left; exact ⟨fn2, c2, rfl⟩
            · have hscan : scanCandidates cfg env kw aj items
                  = (.error e, (scanCandidates cfg env kw aj items).2) := by rw [← hs]
              rw [wf_scan_err cfg env q kw ct aj resp items e _ h hst hj hne hscan]
              right; right; right; exact ⟨_, rfl⟩
          | jnull => simp [pyTruthy] at htr
          | jbool b =>
            right; right; right
            refine ⟨wfErrPre ++ "TypeError: search results are not a list", ?_⟩
            simp only [search_and_find_matching_file, h]
            simp [hst, hj, htr]
          | jnum n =>
            right; right; right
            refine ⟨wfErrPre ++ "TypeError: search results are not a list", ?_⟩
            simp only [search_and_find_matching_file, h]
            simp [hst, hj, htr]
          | jstr s =>
            right; right; right
            refine ⟨wfErrPre ++ "TypeError: search results are not a list", ?_⟩
            simp only [search_and_find_matching_file, h]
            simp [hst, hj, htr]
          | jobj fs =>
            right; right; right
            refine ⟨wfErrPre ++ "TypeError: search results are not a list", ?_⟩
            simp only [search_and_find_matching_file, h]
            simp [hst, hj, htr]
        · rw [wf_falsy cfg env q kw ct aj resp results h hst hj (by simpa using htr)]
          right; left; rfl
    · rw [wf_search_badstatus cfg env q kw ct aj resp h hst]
      right; right; right; exact ⟨_, rfl⟩

end Obsidian
